import Mathlib

/-!
Verification of the client-side photo capture / crop / upload pipeline of the
blu-area warehouse console (React + Supabase client code).

The JavaScript sources are shallowly embedded as executable Lean definitions:
numeric canvas arithmetic is modelled over the exact rationals, MIME types and
file names are strings, byte sizes are naturals, the photo table is a list of
rows, and the camera stream is an optional stream identifier together with an
explicit event trace (stop / request / acquire) so that ordering and resource
properties can be stated.
-/

namespace BluArea

/-! ## Upload client (lib/uploadClient.js)

`uploadProductPhotoSecure(file, productId, sku, isFirst)` first validates the
file locally (MIME type, size) and only then performs the fetch to the upload
endpoint.  We embed the local phase as a function into a result type whose
`proceed` constructor marks exactly the states in which the fetch is reached.
-/

/-- The fields of a browser `File` object that the upload client inspects:
`file.name`, `file.type` (the MIME type) and `file.size` in bytes. -/
structure FileMeta where
  name : String
  mimeType : String
  size : Nat
deriving DecidableEq, Repr

/-- The constant `10 * 1024 * 1024` — the size ceiling used both in
`uploadProductPhotoSecure` and in `uploadConfig.maxFileSize`. -/
def maxFileSize : Nat := 10 * 1024 * 1024

/-- The `uploadConfig.allowedTypes` whitelist from lib/uploadClient.js. -/
def allowedTypes : List String :=
  ["image/jpeg", "image/jpg", "image/png", "image/webp"]

/-- The spec's reading of "accepted image type": membership in the
`uploadConfig.allowedTypes` whitelist. -/
def acceptedImageType (t : String) : Bool :=
  allowedTypes.contains t

/-- Outcome of the local phase of `uploadProductPhotoSecure`:
`noFile` — "Nessun file fornito"; `invalidFormat` — "Solo immagini sono
permesse"; `tooLarge` — "File troppo grande (max 10MB)"; `proceed` — both
local checks passed and the fetch to `/api/upload-photo` is issued. -/
inductive UploadLocalResult where
  | noFile
  | invalidFormat
  | tooLarge
  | proceed
deriving DecidableEq, Repr

/-- Models `file.type.startsWith('image/')`, computed on the character list of the
string so that the definition evaluates by kernel reduction. -/
def mimeIsImage (t : String) : Bool :=
  "image/".data.isPrefixOf t.data

/-- The validation phase of `uploadProductPhotoSecure` (lines 308–335 of
lib/uploadClient.js): reject a missing file, then a MIME type that does not
start with "image/", then a size above 10 MiB; otherwise the network call is
reached. -/
def uploadProductPhotoSecureCheck : Option FileMeta → UploadLocalResult
  | none => .noFile
  | some f =>
    if !(mimeIsImage f.mimeType) then .invalidFormat
    else if f.size > maxFileSize then .tooLarge
    else .proceed

/-- One result of an awaited upload, as the JS `{data, error}` pair: either
the descriptor data or an error message. -/
abbrev UploadResult := Except String Nat

/-- Recursion worker for `uploadMultiplePhotos`: the sequential `for` loop of
lib/uploadClient.js lines 369–391, carrying the current index `i`.  Besides
the `successes` / `errors` accumulators it records the trace of upload calls
as `(index, isFirst)` pairs, in call order, so that sequencing and the
`isFirst = (i == 0)` argument can be reasoned about. -/
def uploadMultiGo (up : FileMeta → Bool → UploadResult) :
    List FileMeta → Nat → (List Nat × List (String × String)) × List (Nat × Bool)
  | [], _ => (([], []), [])
  | f :: fs, i =>
    let rest := uploadMultiGo up fs (i + 1)
    match up f (i == 0) with
    | .ok d => ((d :: rest.1.1, rest.1.2), (i, i == 0) :: rest.2)
    | .error e => ((rest.1.1, (f.name, e) :: rest.1.2), (i, i == 0) :: rest.2)

/-- Models `uploadMultiplePhotos(files, productId, sku)`: processes the files
sequentially starting at index 0; `up` abstracts one awaited
`uploadProductPhotoSecure` call (the product id and sku are fixed by the
caller and folded into `up`). -/
def uploadMultiplePhotos (up : FileMeta → Bool → UploadResult)
    (files : List FileMeta) :
    (List Nat × List (String × String)) × List (Nat × Bool) :=
  uploadMultiGo up files 0

/-! ## Photo table mutations (lib/supabase.js)

`db.setPrimaryPhoto(photoId, productId)` runs two updates against the
`product_photos` table: first `is_primary := false` on every row with the
given `product_id`, then `is_primary := true` on the row with the given `id`.
The table is embedded as a list of rows. -/

/-- A row of the `product_photos` table, restricted to the columns the
primary-flag mutation touches. -/
structure PhotoRow where
  id : Nat
  product_id : Nat
  is_primary : Bool
deriving DecidableEq, Repr

/-- First update of `setPrimaryPhoto`: clear `is_primary` on every photo of
the product. -/
def clearPrimary (productId : Nat) (p : PhotoRow) : PhotoRow :=
  if p.product_id = productId then { p with is_primary := false } else p

/-- Second update of `setPrimaryPhoto`: set `is_primary` on the selected
photo id. -/
def setPrimaryRow (photoId : Nat) (p : PhotoRow) : PhotoRow :=
  if p.id = photoId then { p with is_primary := true } else p

/-- Models `db.setPrimaryPhoto(photoId, productId)` (lib/supabase.js lines 222–238):
clear the flag on all photos of the product, then set it on the selected
photo. -/
def setPrimaryPhoto (photoId productId : Nat) (photos : List PhotoRow) :
    List PhotoRow :=
  (photos.map (clearPrimary productId)).map (setPrimaryRow photoId)

/-! ## Crop / resize engine (components/ImageCropper.jsx)

Canvas arithmetic is embedded over ℚ.  `updatePreview` and `handleConfirm`
both compute output dimensions with the same aspect-ratio correction; the
only difference is that `handleConfirm` multiplies the requested output size
by the scale factor first, while `updatePreview` uses it unscaled. -/

/-- The `cropArea` state: a rectangle in source-image pixel coordinates. -/
structure CropRegion where
  x : ℚ
  y : ℚ
  width : ℚ
  height : ℚ
deriving DecidableEq, Repr

/-- The user-adjustable output parameters: the `outputSize` state
(width, height), the `scale` state (0.1–2.0) and the `quality` state
(0.1–1.0). -/
structure OutputSpec where
  outputWidth : ℚ
  outputHeight : ℚ
  scale : ℚ
  quality : ℚ
deriving DecidableEq, Repr

/-- The aspect-corrected output dimensions, exactly as computed (verbatim, in
both `updatePreview` lines 123–132 and `handleConfirm` lines 166–175):
`aspectRatio = crop width / crop height`; if the requested
`width / height` exceeds it, the width is recomputed as
`height * aspectRatio`, otherwise the height as `width / aspectRatio`. -/
def finalDims (cw ch tw th : ℚ) : ℚ × ℚ :=
  let aspectRatio := cw / ch
  if tw / th > aspectRatio then (th * aspectRatio, th)
  else (tw, tw / aspectRatio)

/-- Output dimensions of the preview canvas in `updatePreview`: the requested
size is `outputSize.width × outputSize.height` — the scale factor is not
consulted. -/
def updatePreviewDims (area : CropRegion) (spec : OutputSpec) : ℚ × ℚ :=
  finalDims area.width area.height spec.outputWidth spec.outputHeight

/-- Output dimensions of the final render in `handleConfirm`: the requested
size is `outputSize.width * scale × outputSize.height * scale`. -/
def handleConfirmDims (area : CropRegion) (spec : OutputSpec) : ℚ × ℚ :=
  finalDims area.width area.height (spec.outputWidth * spec.scale)
    (spec.outputHeight * spec.scale)

/-- The initial crop area set in the image-load effect (lines 44–54):
`margin = 0.1`, `x = width * margin`, `y = height * margin`,
`width = width * (1 - 2 * margin)`, `height = height * (1 - 2 * margin)`. -/
def initialCropArea (w h : ℚ) : CropRegion :=
  { x := w * (1 / 10)
    y := h * (1 / 10)
    width := w * (1 - 2 * (1 / 10))
    height := h * (1 - 2 * (1 / 10)) }

/-- The drag state of the cropper: the `isDragging` flag and the `dragStart`
anchor set on pointer-down. -/
structure DragState where
  isDragging : Bool
  dragStart : ℚ × ℚ
deriving DecidableEq, Repr

/-- Models `handleMouseDown` (lines 77–89): establish the anchor and reset the crop
area to a zero-sized rectangle at the pointer. -/
def handleMouseDown (pointer : ℚ × ℚ) : DragState × CropRegion :=
  (⟨true, pointer⟩,
    { x := pointer.1, y := pointer.2, width := 0, height := 0 })

/-- Models `handleMouseMove` (lines 92–109): while dragging, the new crop area has
`width`/`height` the absolute differences between pointer and anchor and
`x`/`y` their minima; when not dragging the area is unchanged. -/
def handleMouseMove (st : DragState) (pointer : ℚ × ℚ)
    (area : CropRegion) : CropRegion :=
  if st.isDragging = false then area
  else
    { x := min pointer.1 st.dragStart.1
      y := min pointer.2 st.dragStart.2
      width := |pointer.1 - st.dragStart.1|
      height := |pointer.2 - st.dragStart.2| }

/-- Outcome of `handleConfirm`: either the guard fires (toast "Seleziona
un'area da ritagliare", no render, `onConfirm` not invoked) or an output
buffer with the given dimensions is rendered and handed to `onConfirm`. -/
inductive ConfirmResult where
  | noRegionSelected
  | rendered (dims : ℚ × ℚ)
deriving DecidableEq, Repr

/-- Models `handleConfirm` (lines 154–194): return early when the image is not
loaded or the crop area has zero width or zero height; otherwise render at
the scaled, aspect-corrected dimensions. -/
def handleConfirm (imageLoaded : Bool) (area : CropRegion)
    (spec : OutputSpec) : ConfirmResult :=
  if imageLoaded = false ∨ area.width = 0 ∨ area.height = 0 then
    .noRegionSelected
  else .rendered (handleConfirmDims area spec)

/-! ## Camera acquisition (components/CameraCapture.jsx, CameraModal.jsx)

The camera stream is an exclusive hardware resource.  We embed a stream as an
identifier and record the externally visible actions of the handlers as an
event trace: stopping the tracks of a held stream, requesting a new stream
from `getUserMedia`, and acquiring the stream the request resolved to.  The
`forEach(track => track.stop())` loop over the tracks of one stream is
collapsed into a single stream-level stop event, matching the stream-level
stop-call count of the specification. -/

/-- Externally visible camera actions. -/
inductive CamEvent where
  | stopTrack (sid : Nat)
  | requestStream
  | acquireStream (sid : Nat)
deriving DecidableEq, Repr

/-- State of `CameraCapture`: the `stream` React state (the held media
stream, if any). -/
structure CaptureState where
  stream : Option Nat
deriving DecidableEq, Repr

/-- Models `CameraCapture.startCamera` (lines 395–425): if a stream is held, stop
its tracks first; then request a new stream with the current facing-mode
constraints and hold the stream it resolves to (`newSid`). -/
def startCamera (st : CaptureState) (newSid : Nat) :
    CaptureState × List CamEvent :=
  match st.stream with
  | some old =>
    (⟨some newSid⟩,
      [.stopTrack old, .requestStream, .acquireStream newSid])
  | none => (⟨some newSid⟩, [.requestStream, .acquireStream newSid])

/-- Models `CameraCapture.stopCamera` (lines 428–433): stop the tracks and clear the
stream when one is held, otherwise do nothing. -/
def captureStopCamera (st : CaptureState) : CaptureState × List CamEvent :=
  match st.stream with
  | some s => (⟨none⟩, [.stopTrack s])
  | none => (st, [])

/-- The `facingMode` state of `CameraCapture`. -/
inductive Facing where
  | user
  | environment
deriving DecidableEq, Repr

/-- Models `switchCamera` (lines 500–502): toggle the facing mode; the effect hooked
on it then re-runs `startCamera`, which is where the held stream is stopped
and the new one requested. -/
def switchCamera : Facing → Facing
  | .user => .environment
  | .environment => .user

/-- State of `CameraModal` touched by its `stopCamera`: the `streamRef`, the
video element's `srcObject`, and the `isActive` / `error` React states. -/
structure ModalCamState where
  stream : Option Nat
  videoSrc : Option Nat
  isActive : Bool
  error : Option String
deriving DecidableEq, Repr

/-- Models `CameraModal.stopCamera` (lines 144–160): stop the tracks and clear the
stream reference when a stream is held; in every case clear the video
source, the active flag and the error message. -/
def modalStopCamera (st : ModalCamState) : ModalCamState × List CamEvent :=
  match st.stream with
  | some s =>
    ({ stream := none, videoSrc := none, isActive := false, error := none },
      [.stopTrack s])
  | none =>
    ({ stream := none, videoSrc := none, isActive := false, error := none },
      [])

/-- One step of the live-stream accounting: an acquire adds a stream to the
live set, a stop removes it, a request changes nothing. -/
def stepLive (live : List Nat) : CamEvent → List Nat
  | .stopTrack s => live.filter (fun x => x != s)
  | .requestStream => live
  | .acquireStream s => live ++ [s]

/-- The largest number of simultaneously live streams along an event trace,
starting from the given live set (the count is sampled before every event
and after the last). -/
def maxLive (live : List Nat) : List CamEvent → Nat
  | [] => live.length
  | e :: es => max live.length (maxLive (stepLive live e) es)

/-- Render dimensions `dims` preserve the aspect ratio of a `cw × ch` crop
region exactly (cross-multiplied, so no division) and are obtained from the
requested `tw × th` by shrinking at most one of the two dimensions while
keeping the other unchanged. -/
def keepsAspectAndShrinks (dims : ℚ × ℚ) (cw ch tw th : ℚ) : Prop :=
  dims.1 * ch = dims.2 * cw ∧ dims.1 ≤ tw ∧ dims.2 ≤ th ∧
    (dims.1 = tw ∨ dims.2 = th)

/-! ## Helper lemmas -/

/-- For a valid crop region and positive requested dimensions, the
aspect-corrected dimensions keep the region's ratio exactly and shrink at
most one requested dimension. -/
theorem finalDims_keepsAspect (cw ch tw th : ℚ) (hcw : 0 < cw) (hch : 0 < ch)
    (htw : 0 < tw) (hth : 0 < th) :
    keepsAspectAndShrinks (finalDims cw ch tw th) cw ch tw th := by
  have hch' : ch ≠ 0 := ne_of_gt hch
  have hcw' : cw ≠ 0 := ne_of_gt hcw
  unfold keepsAspectAndShrinks
  simp only [finalDims]
  split
  case isTrue hgt =>
    rw [gt_iff_lt, div_lt_div_iff₀ hch hth] at hgt
    refine ⟨?_, ?_, le_refl th, Or.inr rfl⟩
    · field_simp
    · have h1 : th * (cw / ch) = th * cw / ch := by ring
      rw [h1, div_le_iff₀ hch]
      nlinarith
  case isFalse hle =>
    rw [gt_iff_lt, not_lt, div_le_div_iff₀ hth hch] at hle
    refine ⟨?_, le_refl tw, ?_, Or.inl rfl⟩
    · field_simp
    · rw [div_div_eq_mul_div, div_le_iff₀ hcw]
      nlinarith

/-- Scaling both requested dimensions by a nonzero factor scales both
aspect-corrected output dimensions by the same factor. -/
theorem finalDims_mul_scale (cw ch tw th s : ℚ) (hs : s ≠ 0) :
    finalDims cw ch (tw * s) (th * s) =
      (s * (finalDims cw ch tw th).1, s * (finalDims cw ch tw th).2) := by
  simp only [finalDims]
  rw [mul_div_mul_right _ _ hs]
  by_cases hc : tw / th > cw / ch
  · rw [if_pos hc, if_pos hc]
    simp only [Prod.ext_iff]
    exact ⟨by ring, by ring⟩
  · rw [if_neg hc, if_neg hc]
    simp only [Prod.ext_iff]
    exact ⟨by ring, by ring⟩

/-- Pointwise effect of the clear-then-set pair on one row: the result is a
primary photo of the product exactly when the original row is the selected
photo and belongs to the product. -/
theorem setPrimary_pred_comm (photoId productId : Nat) (o : PhotoRow) :
    ((setPrimaryRow photoId (clearPrimary productId o)).product_id == productId &&
      (setPrimaryRow photoId (clearPrimary productId o)).is_primary) =
    (o.id == photoId && o.product_id == productId) := by
  unfold clearPrimary setPrimaryRow
  by_cases hp : o.product_id = productId <;> by_cases hi : o.id = photoId <;>
    (rw [Bool.eq_iff_iff]; simp [Bool.and_eq_true, beq_iff_eq, hp, hi])

/-- The clear-then-set pair never changes a row's id. -/
theorem setPrimary_preserves_id (photoId productId : Nat) (o : PhotoRow) :
    (setPrimaryRow photoId (clearPrimary productId o)).id = o.id := by
  unfold clearPrimary setPrimaryRow
  split_ifs <;> rfl

/-- Counting the primary photos of the product after `setPrimaryPhoto`
reduces to counting the rows of the original table that are the selected
photo of that product. -/
theorem setPrimaryPhoto_countP (photoId productId : Nat)
    (photos : List PhotoRow) :
    (setPrimaryPhoto photoId productId photos).countP
        (fun p => p.product_id == productId && p.is_primary) =
      photos.countP (fun o => o.id == photoId && o.product_id == productId) := by
  unfold setPrimaryPhoto
  rw [List.map_map, List.countP_map]
  refine List.countP_congr (fun o _ => ?_)
  simp only [Function.comp_apply]
  rw [setPrimary_pred_comm]

/-- In a table with pairwise distinct ids that contains the selected photo
under the given product, exactly one row is the selected photo of that
product. -/
theorem countP_id_product (photoId productId : Nat) :
    ∀ photos : List PhotoRow, (photos.map PhotoRow.id).Nodup →
      (∃ p ∈ photos, p.id = photoId ∧ p.product_id = productId) →
      photos.countP (fun o => o.id == photoId && o.product_id == productId) = 1
  | [], _, hmem => by simp at hmem
  | a :: l, hnd, hmem => by
    rw [List.map_cons, List.nodup_cons] at hnd
    obtain ⟨ha, hl⟩ := hnd
    rw [List.countP_cons]
    rcases hmem with ⟨p, hp, hpid, hppid⟩
    rcases List.mem_cons.mp hp with rfl | hpl
    · have hzero :
          l.countP (fun o => o.id == photoId && o.product_id == productId) = 0 := by
        rw [List.countP_eq_zero]
        intro o ho hpred
        rw [Bool.and_eq_true, beq_iff_eq, beq_iff_eq] at hpred
        exact ha (hpid ▸ hpred.1 ▸ List.mem_map_of_mem PhotoRow.id ho)
      simp [hzero, hpid, hppid]
    · have hane : a.id ≠ photoId := by
        intro hwrong
        apply ha
        have hmm : p.id ∈ l.map PhotoRow.id := List.mem_map_of_mem PhotoRow.id hpl
        rw [hpid] at hmm
        rw [hwrong]
        exact hmm
      have hone := countP_id_product photoId productId l hl ⟨p, hpl, hpid, hppid⟩
      simp [hone, hane]

/-- Every primary photo of the product after `setPrimaryPhoto` is the
selected photo. -/
theorem setPrimaryPhoto_only_target (photoId productId : Nat)
    (photos : List PhotoRow) :
    ∀ q ∈ setPrimaryPhoto photoId productId photos,
      q.product_id = productId → q.is_primary = true → q.id = photoId := by
  unfold setPrimaryPhoto
  rw [List.map_map]
  intro q hq hqp hqprim
  obtain ⟨o, ho, rfl⟩ := List.mem_map.mp hq
  simp only [Function.comp] at hqp hqprim ⊢
  have hL : ((setPrimaryRow photoId (clearPrimary productId o)).product_id == productId &&
      (setPrimaryRow photoId (clearPrimary productId o)).is_primary) = true := by
    rw [Bool.and_eq_true, beq_iff_eq]
    exact ⟨hqp, hqprim⟩
  rw [setPrimary_pred_comm, Bool.and_eq_true, beq_iff_eq, beq_iff_eq] at hL
  rw [setPrimary_preserves_id]
  exact hL.1

/-- The sequential upload loop puts every file in exactly one of the two
accumulators. -/
theorem uploadMultiGo_length (up : FileMeta → Bool → UploadResult) :
    ∀ (files : List FileMeta) (i : Nat),
      (uploadMultiGo up files i).1.1.length + (uploadMultiGo up files i).1.2.length
        = files.length
  | [], _ => rfl
  | f :: fs, i => by
    have ih := uploadMultiGo_length up fs (i + 1)
    simp only [uploadMultiGo]
    cases hup : up f (i == 0) <;> simp [hup] <;> omega

/-- Shifting the call-trace template by one index. -/
theorem range_calls_shift (i n : Nat) :
    (List.range (n + 1)).map (fun k => (i + k, (i + k) == 0)) =
      (i, i == 0) :: (List.range n).map (fun k => (i + 1 + k, (i + 1 + k) == 0)) := by
  rw [List.range_succ_eq_map, List.map_cons, List.map_map]
  refine List.cons_eq_cons.mpr ⟨by simp, ?_⟩
  refine List.map_congr_left (fun a _ => ?_)
  have hk : i + (a + 1) = i + 1 + a := by omega
  simp [Function.comp, hk]

/-- The upload loop starting at index `i` calls the uploader once per file,
in index order, with `isFirst = (index == 0)`. -/
theorem uploadMultiGo_calls (up : FileMeta → Bool → UploadResult) :
    ∀ (files : List FileMeta) (i : Nat),
      (uploadMultiGo up files i).2 =
        (List.range files.length).map (fun k => (i + k, (i + k) == 0))
  | [], _ => rfl
  | f :: fs, i => by
    have ih := uploadMultiGo_calls up fs (i + 1)
    simp only [uploadMultiGo]
    cases hup : up f (i == 0) <;>
      simp [hup, ih, List.length_cons, range_calls_shift]

/-! ## Claims -/

/-- C1, counterexample: a file of MIME type "image/gif" is not an accepted
image type in the sense of `uploadConfig.allowedTypes`, yet the local
validation raises no error and the fetch to the upload endpoint is reached —
the code only tests the "image/" MIME prefix, never the whitelist. -/
theorem c1_counterexample :
    acceptedImageType "image/gif" = false ∧
    uploadProductPhotoSecureCheck (some ⟨"a.gif", "image/gif", 1⟩) = .proceed := by
  decide

/-- C1 (amended): for every file, if its MIME type does not start with
"image/" the upload returns the `InvalidFormat` error; if the type is an
image type but the size exceeds 10 MiB it returns `TooLarge`; and the fetch
to the upload endpoint is reached exactly when both local checks pass. -/
theorem c1_upload_validation (f : FileMeta) :
    (mimeIsImage f.mimeType = false →
      uploadProductPhotoSecureCheck (some f) = .invalidFormat) ∧
    (mimeIsImage f.mimeType = true → maxFileSize < f.size →
      uploadProductPhotoSecureCheck (some f) = .tooLarge) ∧
    (uploadProductPhotoSecureCheck (some f) = .proceed ↔
      mimeIsImage f.mimeType = true ∧ f.size ≤ maxFileSize) := by
  unfold uploadProductPhotoSecureCheck
  by_cases hm : mimeIsImage f.mimeType
  · by_cases hs : maxFileSize < f.size
    · simp [hm, hs, Nat.not_le.mpr hs]
    · simp [hm, hs, Nat.not_lt.mp hs]
  · simp [hm]

/-- C1, witness: a 12 MiB JPEG fails immediately with `TooLarge`, so no
network call is made. -/
theorem c1_upload_validation_witness :
    uploadProductPhotoSecureCheck
      (some ⟨"big.jpg", "image/jpeg", 12 * 1024 * 1024⟩) = .tooLarge :=
  (c1_upload_validation ⟨"big.jpg", "image/jpeg", 12 * 1024 * 1024⟩).2.1
    (by decide) (by decide)

/-- C2: for any prior distribution of primary flags, if the photo table has
pairwise distinct ids and contains the selected photo under the given owner,
then after `setPrimaryPhoto` exactly one photo of that owner has
`is_primary = true`, and every such photo is the selected one. -/
theorem c2_setPrimary_exactly_one (photoId productId : Nat)
    (photos : List PhotoRow)
    (hnodup : (photos.map PhotoRow.id).Nodup)
    (hmem : ∃ p ∈ photos, p.id = photoId ∧ p.product_id = productId) :
    (setPrimaryPhoto photoId productId photos).countP
        (fun p => p.product_id == productId && p.is_primary) = 1 ∧
    ∀ q ∈ setPrimaryPhoto photoId productId photos,
      q.product_id = productId → q.is_primary = true → q.id = photoId :=
  ⟨(setPrimaryPhoto_countP photoId productId photos).trans
      (countP_id_product photoId productId photos hnodup hmem),
   setPrimaryPhoto_only_target photoId productId photos⟩

/-- C2, witness: on a concrete three-row table (two photos of product 7, one
of product 8, photo 1 previously primary) selecting photo 2 of product 7
leaves exactly one primary photo under product 7. -/
theorem c2_setPrimary_exactly_one_witness :
    (setPrimaryPhoto 2 7 [⟨1, 7, true⟩, ⟨2, 7, false⟩, ⟨3, 8, true⟩]).countP
        (fun p => p.product_id == 7 && p.is_primary) = 1 :=
  (c2_setPrimary_exactly_one 2 7 [⟨1, 7, true⟩, ⟨2, 7, false⟩, ⟨3, 8, true⟩]
    (by decide) (by decide)).1

/-- C3, counterexample: for the crop region 100 × 50 and requested output
800 × 600 both renders yield 800 × 400 — the larger requested dimension
(the width, 800) is kept and the smaller one (the height, 600) is shrunk,
contradicting the claim that the larger of the requested width/height is
shrunk while the other is kept. -/
theorem c3_counterexample :
    updatePreviewDims ⟨0, 0, 100, 50⟩ ⟨800, 600, 1, 8/10⟩ = (800, 400) ∧
    handleConfirmDims ⟨0, 0, 100, 50⟩ ⟨800, 600, 1, 8/10⟩ = (800, 400) ∧
    (600 : ℚ) < 800 ∧
    ¬((updatePreviewDims ⟨0, 0, 100, 50⟩ ⟨800, 600, 1, 8/10⟩).1 < 800 ∧
      (updatePreviewDims ⟨0, 0, 100, 50⟩ ⟨800, 600, 1, 8/10⟩).2 = 600) := by
  norm_num [updatePreviewDims, handleConfirmDims, finalDims]

/-- C3 (amended): for every valid crop region and positive output spec, the
dimensions computed by both the preview render and the final confirm render
have exactly the crop region's aspect ratio (hence within any one-pixel
tolerance), and are obtained by shrinking whichever requested dimension is
proportionally too large for that ratio while keeping the other unchanged
(not necessarily the numerically larger one). -/
theorem c3_aspect_preserved (area : CropRegion) (spec : OutputSpec)
    (hw : 0 < area.width) (hh : 0 < area.height)
    (how : 0 < spec.outputWidth) (hoh : 0 < spec.outputHeight)
    (hsc : 0 < spec.scale) :
    keepsAspectAndShrinks (updatePreviewDims area spec) area.width area.height
      spec.outputWidth spec.outputHeight ∧
    keepsAspectAndShrinks (handleConfirmDims area spec) area.width area.height
      (spec.outputWidth * spec.scale) (spec.outputHeight * spec.scale) :=
  ⟨finalDims_keepsAspect _ _ _ _ hw hh how hoh,
   finalDims_keepsAspect _ _ _ _ hw hh (mul_pos how hsc) (mul_pos hoh hsc)⟩

/-- C3, witness: a 4 × 3 crop region with requested output 800 × 600 at
scale 1 keeps the 4:3 ratio in both renders. -/
theorem c3_aspect_preserved_witness :
    keepsAspectAndShrinks (updatePreviewDims ⟨0, 0, 4, 3⟩ ⟨800, 600, 1, 8/10⟩)
      4 3 800 600 ∧
    keepsAspectAndShrinks (handleConfirmDims ⟨0, 0, 4, 3⟩ ⟨800, 600, 1, 8/10⟩)
      4 3 (800 * 1) (600 * 1) :=
  c3_aspect_preserved ⟨0, 0, 4, 3⟩ ⟨800, 600, 1, 8/10⟩ (by norm_num)
    (by norm_num) (by norm_num) (by norm_num) (by norm_num)

/-- C4: calling confirm while the current crop region has zero width or zero
height fails with `NoRegionSelected`: the handler returns early, so no output
buffer is rendered and the `onConfirm` callback is not invoked. -/
theorem c4_zero_region_noRegionSelected (imageLoaded : Bool)
    (area : CropRegion) (spec : OutputSpec)
    (h : area.width = 0 ∨ area.height = 0) :
    handleConfirm imageLoaded area spec = .noRegionSelected := by
  unfold handleConfirm
  rw [if_pos (Or.inr h)]

/-- C4, witness: a zero-width region fails with `NoRegionSelected`. -/
theorem c4_zero_region_noRegionSelected_witness :
    handleConfirm true ⟨0, 0, 0, 5⟩ ⟨800, 600, 1, 8/10⟩ = .noRegionSelected :=
  c4_zero_region_noRegionSelected true ⟨0, 0, 0, 5⟩ ⟨800, 600, 1, 8/10⟩
    (Or.inl rfl)

/-- C5, counterexample: with an 800 × 600 crop region, requested output
800 × 600 and scale 2, the preview render yields 800 × 600 while the
scale-honoring dimensions are 1600 × 1200 — `updatePreview` does not derive
the preview dimensions from target size multiplied by the scale factor. -/
theorem c5_counterexample :
    updatePreviewDims ⟨0, 0, 800, 600⟩ ⟨800, 600, 2, 8/10⟩ = (800, 600) ∧
    handleConfirmDims ⟨0, 0, 800, 600⟩ ⟨800, 600, 2, 8/10⟩ = (1600, 1200) ∧
    updatePreviewDims ⟨0, 0, 800, 600⟩ ⟨800, 600, 2, 8/10⟩ ≠
      handleConfirmDims ⟨0, 0, 800, 600⟩ ⟨800, 600, 2, 8/10⟩ := by
  norm_num [updatePreviewDims, handleConfirmDims, finalDims]

/-- C5 (amended): `updatePreview` ignores `spec.scale` entirely — its output
dimensions are unchanged under any modification of the scale factor; the
scale is honored only by the final confirm render, whose dimensions are
exactly the preview dimensions multiplied by the scale factor (for any
positive scale, in particular throughout 0.1–2.0). -/
theorem c5_preview_ignores_scale (area : CropRegion) (spec : OutputSpec)
    (sc : ℚ) (hs : 0 < spec.scale) :
    updatePreviewDims area { spec with scale := sc } =
      updatePreviewDims area spec ∧
    handleConfirmDims area spec =
      (spec.scale * (updatePreviewDims area spec).1,
       spec.scale * (updatePreviewDims area spec).2) := by
  refine ⟨rfl, ?_⟩
  unfold handleConfirmDims updatePreviewDims
  exact finalDims_mul_scale _ _ _ _ _ (ne_of_gt hs)

/-- C5, witness: at scale 2 the confirm dimensions are twice the (scale
independent) preview dimensions. -/
theorem c5_preview_ignores_scale_witness :
    updatePreviewDims ⟨0, 0, 800, 600⟩ ⟨800, 600, 5, 8/10⟩ =
      updatePreviewDims ⟨0, 0, 800, 600⟩ ⟨800, 600, 2, 8/10⟩ ∧
    handleConfirmDims ⟨0, 0, 800, 600⟩ ⟨800, 600, 2, 8/10⟩ =
      (2 * (updatePreviewDims ⟨0, 0, 800, 600⟩ ⟨800, 600, 2, 8/10⟩).1,
       2 * (updatePreviewDims ⟨0, 0, 800, 600⟩ ⟨800, 600, 2, 8/10⟩).2) :=
  c5_preview_ignores_scale ⟨0, 0, 800, 600⟩ ⟨800, 600, 2, 8/10⟩ 5 (by norm_num)

/-- C6: for every source size `w × h`, the initial crop region is the
inset-80% rectangle: `x = 0.1·w`, `y = 0.1·h`, `width = 0.8·w`,
`height = 0.8·h`. -/
theorem c6_initial_crop_inset (w h : ℚ) :
    (initialCropArea w h).x = (1 / 10) * w ∧
    (initialCropArea w h).y = (1 / 10) * h ∧
    (initialCropArea w h).width = (8 / 10) * w ∧
    (initialCropArea w h).height = (8 / 10) * h := by
  refine ⟨?_, ?_, ?_, ?_⟩ <;> (simp only [initialCropArea]; ring)

/-- C7: for every pointer-move during a drag, regardless of direction, the
produced crop region has non-negative width and height, with `x`/`y` the
minima of the anchor and pointer coordinates and width/height their absolute
differences. -/
theorem c7_drag_normalized (st : DragState) (pointer : ℚ × ℚ)
    (area : CropRegion) (h : st.isDragging = true) :
    0 ≤ (handleMouseMove st pointer area).width ∧
    0 ≤ (handleMouseMove st pointer area).height ∧
    (handleMouseMove st pointer area).x = min pointer.1 st.dragStart.1 ∧
    (handleMouseMove st pointer area).y = min pointer.2 st.dragStart.2 ∧
    (handleMouseMove st pointer area).width = |pointer.1 - st.dragStart.1| ∧
    (handleMouseMove st pointer area).height = |pointer.2 - st.dragStart.2| := by
  unfold handleMouseMove
  rw [if_neg (by simp [h])]
  exact ⟨abs_nonneg _, abs_nonneg _, rfl, rfl, rfl, rfl⟩

/-- C7, witness: dragging up-left from anchor (10, 20) to pointer (4, 25)
yields the normalized region with non-negative sides. -/
theorem c7_drag_normalized_witness :
    0 ≤ (handleMouseMove ⟨true, (10, 20)⟩ (4, 25) ⟨0, 0, 0, 0⟩).width ∧
    0 ≤ (handleMouseMove ⟨true, (10, 20)⟩ (4, 25) ⟨0, 0, 0, 0⟩).height ∧
    (handleMouseMove ⟨true, (10, 20)⟩ (4, 25) ⟨0, 0, 0, 0⟩).x = min 4 10 ∧
    (handleMouseMove ⟨true, (10, 20)⟩ (4, 25) ⟨0, 0, 0, 0⟩).y = min 25 20 ∧
    (handleMouseMove ⟨true, (10, 20)⟩ (4, 25) ⟨0, 0, 0, 0⟩).width = |(4 : ℚ) - 10| ∧
    (handleMouseMove ⟨true, (10, 20)⟩ (4, 25) ⟨0, 0, 0, 0⟩).height = |(25 : ℚ) - 20| :=
  c7_drag_normalized ⟨true, (10, 20)⟩ (4, 25) ⟨0, 0, 0, 0⟩ rfl

/-- C8: whenever `startCamera` runs while a stream is already held (as on a
facing switch), the event trace stops the old stream's tracks exactly once,
strictly before the new stream is requested, at no point are two streams
live simultaneously, and afterwards only the new stream is held. -/
theorem c8_switch_stops_previous_first (st : CaptureState) (old newSid : Nat)
    (h : st.stream = some old) :
    (startCamera st newSid).2 =
      [CamEvent.stopTrack old, CamEvent.requestStream,
        CamEvent.acquireStream newSid] ∧
    (startCamera st newSid).2.count (CamEvent.stopTrack old) = 1 ∧
    maxLive [old] (startCamera st newSid).2 ≤ 1 ∧
    (startCamera st newSid).1 = ⟨some newSid⟩ := by
  obtain ⟨s⟩ := st
  simp only at h
  subst h
  refine ⟨rfl, ?_, ?_, rfl⟩
  · simp [startCamera, List.count_cons]
  · simp [startCamera, maxLive, stepLive]

/-- C8, witness: switching away from held stream 5 to new stream 6 stops
stream 5 exactly once before the request and never holds two live
streams. -/
theorem c8_switch_stops_previous_first_witness :
    (startCamera ⟨some 5⟩ 6).2 =
      [CamEvent.stopTrack 5, CamEvent.requestStream, CamEvent.acquireStream 6] ∧
    (startCamera ⟨some 5⟩ 6).2.count (CamEvent.stopTrack 5) = 1 ∧
    maxLive [5] (startCamera ⟨some 5⟩ 6).2 ≤ 1 ∧
    (startCamera ⟨some 5⟩ 6).1 = ⟨some 6⟩ :=
  c8_switch_stops_previous_first ⟨some 5⟩ 5 6 rfl

/-- C9, counterexample: in the reachable `CameraModal` state after a denied
camera permission (no stream held, error message set), `stopCamera` is not a
no-op — it clears the error message, so the state changes even though no
stream is held. -/
theorem c9_counterexample :
    (⟨none, none, false, some "Permesso fotocamera negato"⟩ :
        ModalCamState).stream = none ∧
    (modalStopCamera ⟨none, none, false, some "Permesso fotocamera negato"⟩).1 ≠
      ⟨none, none, false, some "Permesso fotocamera negato"⟩ := by
  decide

/-- C9 (amended): both stop operations are idempotent — a second call leaves
the state unchanged and stops no tracks; when no stream is held neither stops
any track, and `CameraCapture.stopCamera` is then a strict no-op, while
`CameraModal.stopCamera` still clears the video source, active flag and
error message. -/
theorem c9_stop_camera_idempotent (stM : ModalCamState) (stC : CaptureState) :
    modalStopCamera (modalStopCamera stM).1 = ((modalStopCamera stM).1, []) ∧
    captureStopCamera (captureStopCamera stC).1 =
      ((captureStopCamera stC).1, []) ∧
    (stM.stream = none → (modalStopCamera stM).2 = []) ∧
    (stC.stream = none → captureStopCamera stC = (stC, [])) := by
  obtain ⟨s, v, a, e⟩ := stM
  obtain ⟨t⟩ := stC
  refine ⟨?_, ?_, ?_, ?_⟩
  · cases s <;> rfl
  · cases t <;> rfl
  · intro hs
    simp only at hs
    subst hs
    rfl
  · intro ht
    simp only at ht
    subst ht
    rfl

/-- C9, witness: calling `CameraCapture.stopCamera` with no held stream
leaves the state unchanged and emits no events. -/
theorem c9_stop_camera_idempotent_witness :
    captureStopCamera ⟨none⟩ = (⟨none⟩, []) :=
  (c9_stop_camera_idempotent ⟨none, none, false, none⟩ ⟨none⟩).2.2.2 rfl

/-- C10: for every uploader and every file list, `uploadMultiplePhotos`
places each file's outcome in exactly one of the two result lists (their
lengths sum to the number of files) and performs the upload calls
sequentially in index order 0, 1, …, with `isFirst = true` exactly at
index 0. -/
theorem c10_upload_multiple_sequential (up : FileMeta → Bool → UploadResult)
    (files : List FileMeta) :
    (uploadMultiplePhotos up files).1.1.length +
        (uploadMultiplePhotos up files).1.2.length = files.length ∧
    (uploadMultiplePhotos up files).2 =
      (List.range files.length).map (fun k => (k, k == 0)) := by
  constructor
  · exact uploadMultiGo_length up files 0
  · have h := uploadMultiGo_calls up files 0
    simpa using h

end BluArea
